import Mathlib

/-!
Shallow embedding of `src/order_management_business_case.py`:
the scenario-calculation engine (benefit calculators, scenario adjustment,
year-by-year cash-flow projection, payback) and the benchmark classifier.
Python floats are modelled as rationals (`ℚ`); Python's `x / y` on nonzero
denominators agrees with `ℚ` division, and every division site's denominator
is tracked by the claims.
-/

namespace OrderMgmt

/-- Mirrors the Python dataclass `FinancialInputs` (all numeric fields as `ℚ`,
the integer fields `time_horizon` and the month counts as `ℕ`). -/
structure FinancialInputs where
  annual_order_volume : ℚ
  average_order_value : ℚ
  profit_margin : ℚ
  current_dso : ℚ
  current_perfect_order_rate : ℚ
  current_cycle_time : ℚ
  current_revenue_leakage : ℚ
  current_cost_per_order : ℚ
  current_stp_rate : ℚ
  target_dso : ℚ
  target_perfect_order_rate : ℚ
  target_cycle_time : ℚ
  target_revenue_leakage : ℚ
  target_cost_per_order : ℚ
  target_stp_rate : ℚ
  avg_rework_cost : ℚ
  fully_loaded_hourly_rate : ℚ
  avg_manual_processing_time : ℚ
  initial_investment : ℚ
  annual_maintenance : ℚ
  change_management_cost : ℚ
  integration_cost : ℚ
  wacc : ℚ
  tax_rate : ℚ
  time_horizon : ℕ
  pilot_duration_months : ℕ
  limited_production_months : ℕ
  full_production_month : ℕ

/-- `calculate_annual_revenue(volume, avg_value)`. -/
def calculate_annual_revenue (volume : ℚ) (avg_value : ℚ) : ℚ :=
  volume * avg_value

/-- Result dict of `calculate_working_capital_benefit`. -/
structure WorkingCapitalResult where
  current_ar : ℚ
  target_ar : ℚ
  cash_freed : ℚ
  annual_benefit : ℚ
  dso_improvement_days : ℚ

/-- `calculate_working_capital_benefit`. -/
def calculate_working_capital_benefit (current_dso target_dso annual_revenue wacc : ℚ) :
    WorkingCapitalResult :=
  let current_ar := (current_dso / 365) * annual_revenue
  let target_ar := (target_dso / 365) * annual_revenue
  let cash_freed := current_ar - target_ar
  let annual_benefit := cash_freed * wacc
  { current_ar := current_ar
    target_ar := target_ar
    cash_freed := cash_freed
    annual_benefit := annual_benefit
    dso_improvement_days := current_dso - target_dso }

/-- Result dict of `calculate_error_reduction_benefit`. -/
structure ErrorReductionResult where
  current_errors : ℚ
  target_errors : ℚ
  errors_eliminated : ℚ
  annual_savings : ℚ
  error_rate_improvement : ℚ

/-- `calculate_error_reduction_benefit`. -/
def calculate_error_reduction_benefit
    (current_perfect_rate target_perfect_rate order_volume rework_cost : ℚ) :
    ErrorReductionResult :=
  let current_errors := order_volume * (1 - current_perfect_rate)
  let target_errors := order_volume * (1 - target_perfect_rate)
  let errors_eliminated := current_errors - target_errors
  let annual_savings := errors_eliminated * rework_cost
  { current_errors := current_errors
    target_errors := target_errors
    errors_eliminated := errors_eliminated
    annual_savings := annual_savings
    error_rate_improvement := (1 - current_perfect_rate) - (1 - target_perfect_rate) }

/-- Result dict of `calculate_revenue_leakage_benefit`. -/
structure RevenueLeakageResult where
  current_leakage_amount : ℚ
  target_leakage_amount : ℚ
  revenue_protected : ℚ
  profit_impact : ℚ
  leakage_reduction : ℚ

/-- `calculate_revenue_leakage_benefit`. -/
def calculate_revenue_leakage_benefit
    (current_leakage target_leakage annual_revenue profit_margin : ℚ) :
    RevenueLeakageResult :=
  let current_leakage_amount := annual_revenue * current_leakage
  let target_leakage_amount := annual_revenue * target_leakage
  let revenue_protected := current_leakage_amount - target_leakage_amount
  let profit_impact := revenue_protected * profit_margin
  { current_leakage_amount := current_leakage_amount
    target_leakage_amount := target_leakage_amount
    revenue_protected := revenue_protected
    profit_impact := profit_impact
    leakage_reduction := current_leakage - target_leakage }

/-- Result dict of `calculate_labor_automation_benefit`. -/
structure LaborAutomationResult where
  current_manual_touches : ℚ
  target_manual_touches : ℚ
  touches_eliminated : ℚ
  hours_saved : ℚ
  annual_savings : ℚ
  fte_reduction : ℚ
  stp_improvement : ℚ

/-- `calculate_labor_automation_benefit`. -/
def calculate_labor_automation_benefit
    (current_stp_rate target_stp_rate order_volume processing_time_minutes hourly_rate : ℚ) :
    LaborAutomationResult :=
  let current_manual := order_volume * (1 - current_stp_rate)
  let target_manual := order_volume * (1 - target_stp_rate)
  let manual_touches_eliminated := current_manual - target_manual
  let hours_saved := (manual_touches_eliminated * processing_time_minutes) / 60
  let annual_savings := hours_saved * hourly_rate
  { current_manual_touches := current_manual
    target_manual_touches := target_manual
    touches_eliminated := manual_touches_eliminated
    hours_saved := hours_saved
    annual_savings := annual_savings
    fte_reduction := hours_saved / 2080
    stp_improvement := target_stp_rate - current_stp_rate }

/-- Result dict of `calculate_cycle_time_benefit`. -/
structure CycleTimeResult where
  cycle_time_reduction_days : ℚ
  cycle_time_reduction_pct : ℚ
  additional_capacity_orders : ℚ
  revenue_opportunity : ℚ
  profit_impact : ℚ
  capacity_capture_rate : ℚ

/-- `calculate_cycle_time_benefit` (default `capacity_capture_rate = 0.30`
is applied at the one call site, as in the source). -/
def calculate_cycle_time_benefit
    (current_cycle_time target_cycle_time order_volume avg_order_value profit_margin
     capacity_capture_rate : ℚ) : CycleTimeResult :=
  let cycle_time_reduction_pct := (current_cycle_time - target_cycle_time) / current_cycle_time
  let additional_capacity := order_volume * cycle_time_reduction_pct
  let revenue_opportunity := additional_capacity * avg_order_value * capacity_capture_rate
  let profit_impact := revenue_opportunity * profit_margin
  { cycle_time_reduction_days := current_cycle_time - target_cycle_time
    cycle_time_reduction_pct := cycle_time_reduction_pct
    additional_capacity_orders := additional_capacity
    revenue_opportunity := revenue_opportunity
    profit_impact := profit_impact
    capacity_capture_rate := capacity_capture_rate }

/-- Result dict of `calculate_cost_per_order_benefit`. -/
structure CostPerOrderResult where
  cost_reduction_per_order : ℚ
  cost_reduction_pct : ℚ
  annual_savings : ℚ

/-- `calculate_cost_per_order_benefit`; note the unguarded division by
`current_cost` in `cost_reduction_pct`. -/
def calculate_cost_per_order_benefit (current_cost target_cost order_volume : ℚ) :
    CostPerOrderResult :=
  let cost_reduction := current_cost - target_cost
  { cost_reduction_per_order := cost_reduction
    cost_reduction_pct := cost_reduction / current_cost
    annual_savings := cost_reduction * order_volume }

/-- Scenario tag: the keys of the `scenario_multipliers` dict in
`calculate_scenario` (any other string is a `KeyError`, i.e. a programming
error, so the tag is an enumeration). -/
inductive ScenTag where
  | best
  | base
  | worst

/-- The `scenario_multipliers` dict: `(adoption, performance)` per tag. -/
def scenario_multipliers : ScenTag → ℚ × ℚ
  | .best => (0.95, 1.10)
  | .base => (0.75, 1.00)
  | .worst => (0.50, 0.80)

/-- The `adj_inputs` record built inside `calculate_scenario`: every
non-target field copied, the six target metrics adjusted by `perf`. -/
def adjusted_inputs (inputs : FinancialInputs) (perf : ℚ) : FinancialInputs :=
  { annual_order_volume := inputs.annual_order_volume
    average_order_value := inputs.average_order_value
    profit_margin := inputs.profit_margin
    current_dso := inputs.current_dso
    current_perfect_order_rate := inputs.current_perfect_order_rate
    current_cycle_time := inputs.current_cycle_time
    current_revenue_leakage := inputs.current_revenue_leakage
    current_cost_per_order := inputs.current_cost_per_order
    current_stp_rate := inputs.current_stp_rate
    target_dso := inputs.current_dso - ((inputs.current_dso - inputs.target_dso) * perf)
    target_perfect_order_rate := inputs.current_perfect_order_rate +
      ((inputs.target_perfect_order_rate - inputs.current_perfect_order_rate) * perf)
    target_cycle_time := inputs.current_cycle_time -
      ((inputs.current_cycle_time - inputs.target_cycle_time) * perf)
    target_revenue_leakage := inputs.current_revenue_leakage -
      ((inputs.current_revenue_leakage - inputs.target_revenue_leakage) * perf)
    target_cost_per_order := inputs.current_cost_per_order -
      ((inputs.current_cost_per_order - inputs.target_cost_per_order) * perf)
    target_stp_rate := inputs.current_stp_rate +
      ((inputs.target_stp_rate - inputs.current_stp_rate) * perf)
    avg_rework_cost := inputs.avg_rework_cost
    fully_loaded_hourly_rate := inputs.fully_loaded_hourly_rate
    avg_manual_processing_time := inputs.avg_manual_processing_time
    initial_investment := inputs.initial_investment
    annual_maintenance := inputs.annual_maintenance
    change_management_cost := inputs.change_management_cost
    integration_cost := inputs.integration_cost
    wacc := inputs.wacc
    tax_rate := inputs.tax_rate
    time_horizon := inputs.time_horizon
    pilot_duration_months := inputs.pilot_duration_months
    limited_production_months := inputs.limited_production_months
    full_production_month := inputs.full_production_month }

/-- One row of the `years` projection built by `calculate_scenario`
(one row of `cash_flow_df`). -/
structure YearRecord where
  year : ℕ
  phase : String
  adoption_rate : ℚ
  investment : ℚ
  maintenance : ℚ
  benefits : ℚ
  net_cf : ℚ
  cumulative_cf : ℚ
  discounted_cf : ℚ

instance : Inhabited YearRecord :=
  ⟨⟨0, "", 0, 0, 0, 0, 0, 0, 0⟩⟩

/-- The `for year in range(3, time_horizon + 1)` loop of `calculate_scenario`:
`count` remaining iterations, `year` the loop variable, `cum` the running
`cumulative_cf` entering the iteration. -/
def steady_years (total_annual_benefit adoption annual_maintenance wacc : ℚ) :
    ℕ → ℕ → ℚ → List YearRecord
  | 0, _, _ => []
  | count + 1, year, cum =>
    let growth_factor : ℚ := (1.03 : ℚ) ^ (year - 2)
    let year_benefit := total_annual_benefit * adoption * growth_factor
    let year_maintenance := annual_maintenance * (1.02 : ℚ) ^ (year - 2)
    let year_net := year_benefit - year_maintenance
    { year := year
      phase := "Steady State"
      adoption_rate := adoption
      investment := 0
      maintenance := year_maintenance
      benefits := year_benefit
      net_cf := year_net
      cumulative_cf := cum + year_net
      discounted_cf := year_net / ((1 + wacc) ^ year) } ::
      steady_years total_annual_benefit adoption annual_maintenance wacc
        count (year + 1) (cum + year_net)

/-- The payback loop of `calculate_scenario`: `idx` the row index, `prev` the
previous row's `cumulative_cf` (`df.loc[idx - 1]`; never read at `idx = 0`). -/
def payback_scan : List YearRecord → ℕ → ℚ → Option ℚ
  | [], _, _ => none
  | row :: rest, idx, prev =>
    if 0 < row.cumulative_cf then
      if idx = 0 then some 0
      else
        some (((idx - 1 : ℕ) : ℚ) +
          (if row.cumulative_cf - prev ≠ 0 then |prev| / (row.cumulative_cf - prev) else 0))
    else payback_scan rest (idx + 1) row.cumulative_cf

/-- The dict returned by `calculate_scenario` (`cash_flow` is the row list of
`cash_flow_df`). -/
structure ScenarioResult where
  scenario_type : ScenTag
  adoption_rate : ℚ
  performance_multiplier : ℚ
  annual_revenue : ℚ
  working_capital : WorkingCapitalResult
  error_reduction : ErrorReductionResult
  revenue_leakage : RevenueLeakageResult
  labor_automation : LaborAutomationResult
  cycle_time : CycleTimeResult
  cost_reduction : CostPerOrderResult
  total_annual_benefit : ℚ
  cash_flow : List YearRecord
  npv : ℚ
  roi : ℚ
  payback : Option ℚ
  total_investment : ℚ
  total_benefits : ℚ

/-- `calculate_scenario(inputs, scenario_type)`. -/
def calculate_scenario (inputs : FinancialInputs) (scenario_type : ScenTag) :
    ScenarioResult :=
  let mult := scenario_multipliers scenario_type
  let adoption := mult.1
  let perf := mult.2
  let adj_inputs := adjusted_inputs inputs perf
  let annual_revenue :=
    calculate_annual_revenue adj_inputs.annual_order_volume adj_inputs.average_order_value
  let wc_benefit := calculate_working_capital_benefit
    adj_inputs.current_dso adj_inputs.target_dso annual_revenue adj_inputs.wacc
  let error_benefit := calculate_error_reduction_benefit
    adj_inputs.current_perfect_order_rate adj_inputs.target_perfect_order_rate
    adj_inputs.annual_order_volume adj_inputs.avg_rework_cost
  let leakage_benefit := calculate_revenue_leakage_benefit
    adj_inputs.current_revenue_leakage adj_inputs.target_revenue_leakage
    annual_revenue adj_inputs.profit_margin
  let labor_benefit := calculate_labor_automation_benefit
    adj_inputs.current_stp_rate adj_inputs.target_stp_rate adj_inputs.annual_order_volume
    adj_inputs.avg_manual_processing_time adj_inputs.fully_loaded_hourly_rate
  let cycle_benefit := calculate_cycle_time_benefit
    adj_inputs.current_cycle_time adj_inputs.target_cycle_time adj_inputs.annual_order_volume
    adj_inputs.average_order_value adj_inputs.profit_margin 0.30
  let cost_benefit := calculate_cost_per_order_benefit
    adj_inputs.current_cost_per_order adj_inputs.target_cost_per_order
    adj_inputs.annual_order_volume
  let total_annual_benefit := adoption *
    (wc_benefit.annual_benefit + error_benefit.annual_savings + leakage_benefit.profit_impact +
     labor_benefit.annual_savings + cycle_benefit.profit_impact)
  let year0_benefit := total_annual_benefit * 0.15 * adoption
  let year0_cost := adj_inputs.initial_investment * 0.30 +
    adj_inputs.change_management_cost * 0.50
  let year0_net := year0_benefit - year0_cost
  let cum0 := year0_net
  let row0 : YearRecord :=
    { year := 0, phase := "Pilot", adoption_rate := 0.15 * adoption
      investment := year0_cost, maintenance := 0, benefits := year0_benefit
      net_cf := year0_net, cumulative_cf := cum0
      discounted_cf := year0_net / ((1 + adj_inputs.wacc) ^ (0 : ℕ)) }
  let year1_benefit := total_annual_benefit * 0.45 * adoption
  let year1_cost := adj_inputs.initial_investment * 0.50 +
    adj_inputs.change_management_cost * 0.50 + adj_inputs.integration_cost
  let year1_maintenance := adj_inputs.annual_maintenance * 0.5
  let year1_net := year1_benefit - year1_cost - year1_maintenance
  let cum1 := cum0 + year1_net
  let row1 : YearRecord :=
    { year := 1, phase := "Limited Production", adoption_rate := 0.45 * adoption
      investment := year1_cost, maintenance := year1_maintenance, benefits := year1_benefit
      net_cf := year1_net, cumulative_cf := cum1
      discounted_cf := year1_net / ((1 + adj_inputs.wacc) ^ (1 : ℕ)) }
  let year2_benefit := total_annual_benefit * 0.80 * adoption
  let year2_cost := adj_inputs.initial_investment * 0.20
  let year2_maintenance := adj_inputs.annual_maintenance
  let year2_net := year2_benefit - year2_cost - year2_maintenance
  let cum2 := cum1 + year2_net
  let row2 : YearRecord :=
    { year := 2, phase := "Full Production", adoption_rate := 0.80 * adoption
      investment := year2_cost, maintenance := year2_maintenance, benefits := year2_benefit
      net_cf := year2_net, cumulative_cf := cum2
      discounted_cf := year2_net / ((1 + adj_inputs.wacc) ^ (2 : ℕ)) }
  let years := [row0, row1, row2] ++
    steady_years total_annual_benefit adoption adj_inputs.annual_maintenance adj_inputs.wacc
      (adj_inputs.time_horizon + 1 - 3) 3 cum2
  let npv := (years.map (fun r => r.discounted_cf)).sum
  let total_investment := (years.map (fun r => r.investment)).sum +
    (years.map (fun r => r.maintenance)).sum
  let total_benefits := (years.map (fun r => r.benefits)).sum
  let roi := if 0 < total_investment then
    ((total_benefits - total_investment) / total_investment) * 100 else 0
  { scenario_type := scenario_type
    adoption_rate := adoption
    performance_multiplier := perf
    annual_revenue := annual_revenue
    working_capital := wc_benefit
    error_reduction := error_benefit
    revenue_leakage := leakage_benefit
    labor_automation := labor_benefit
    cycle_time := cycle_benefit
    cost_reduction := cost_benefit
    total_annual_benefit := total_annual_benefit
    cash_flow := years
    npv := npv
    roi := roi
    payback := payback_scan years 0 0
    total_investment := total_investment
    total_benefits := total_benefits }

/-- One entry of the `INDUSTRY_BENCHMARKS` dict. -/
structure BenchmarkRow where
  bottom_quartile : ℚ
  average : ℚ
  top_quartile : ℚ
  best_in_class : ℚ

/-- The keys of `INDUSTRY_BENCHMARKS`. -/
inductive MetricKey where
  | dso
  | perfect_order_rate
  | stp_rate
  | cost_per_order
  | revenue_leakage

/-- The `INDUSTRY_BENCHMARKS` dict. -/
def INDUSTRY_BENCHMARKS : MetricKey → BenchmarkRow
  | .dso =>
    { bottom_quartile := 52, average := 38, top_quartile := 31, best_in_class := 24 }
  | .perfect_order_rate =>
    { bottom_quartile := 0.68, average := 0.85, top_quartile := 0.93, best_in_class := 0.97 }
  | .stp_rate =>
    { bottom_quartile := 0.58, average := 0.78, top_quartile := 0.89, best_in_class := 0.95 }
  | .cost_per_order =>
    { bottom_quartile := 105, average := 62, top_quartile := 42, best_in_class := 28 }
  | .revenue_leakage =>
    { bottom_quartile := 0.12, average := 0.06, top_quartile := 0.03, best_in_class := 0.01 }

/-- The `categorize` closure inside `get_benchmark_position`: `(label, color)`.
The first branch is taken for the lower-is-better metrics
`['dso', 'cost_per_order', 'revenue_leakage']`. -/
def categorize (metric_name : MetricKey) (value : ℚ) : String × String :=
  let benchmarks := INDUSTRY_BENCHMARKS metric_name
  match metric_name with
  | .dso | .cost_per_order | .revenue_leakage =>
    if value ≤ benchmarks.best_in_class then ("Best-in-Class", "#28a745")
    else if value ≤ benchmarks.top_quartile then ("Top Quartile", "#20c997")
    else if value ≤ benchmarks.average then ("Average", "#ffc107")
    else ("Bottom Quartile", "#dc3545")
  | _ =>
    if benchmarks.best_in_class ≤ value then ("Best-in-Class", "#28a745")
    else if benchmarks.top_quartile ≤ value then ("Top Quartile", "#20c997")
    else if benchmarks.average ≤ value then ("Average", "#ffc107")
    else ("Bottom Quartile", "#dc3545")

/-- The dict returned by `get_benchmark_position`. -/
structure BenchmarkPosition where
  current_category : String
  current_color : String
  target_category : String
  target_color : String
  benchmarks : BenchmarkRow

/-- `get_benchmark_position(metric_name, current_value, target_value)`. -/
def get_benchmark_position (metric_name : MetricKey) (current_value target_value : ℚ) :
    BenchmarkPosition :=
  let current := categorize metric_name current_value
  let target := categorize metric_name target_value
  { current_category := current.1
    current_color := current.2
    target_category := target.1
    target_color := target.2
    benchmarks := INDUSTRY_BENCHMARKS metric_name }

/-- First index of a row with positive `cumulative_cf` (the index the payback
loop breaks at). -/
def first_positive_index : List YearRecord → Option ℕ
  | [] => none
  | r :: rest =>
    if 0 < r.cumulative_cf then some 0
    else (first_positive_index rest).map (fun i => i + 1)

/-- The payback rule transcribed from the spec rather than from the code, for
the refinement comparison: first year index `y` with `cumulative_cf > 0`;
`0` if `y = 0`; otherwise `(y-1) + |cumulative_cf[y-1]| /
(cumulative_cf[y] - cumulative_cf[y-1])` with the fraction `0` when the
denominator is `0`; absent when `cumulative_cf` never turns positive. -/
def payback_per_spec (rows : List YearRecord) : Option ℚ :=
  match first_positive_index rows with
  | none => none
  | some 0 => some 0
  | some (y + 1) =>
    let prev := (rows.getD y default).cumulative_cf
    let curr := (rows.getD (y + 1) default).cumulative_cf
    some ((y : ℚ) + (if curr - prev ≠ 0 then |prev| / (curr - prev) else 0))

/-- Proof-helper invariant for a projection suffix: starting at year `n` with
running cumulative `cum`, every row's year increments by one, `net_cf` is
`benefits - investment - maintenance`, and `cumulative_cf` extends `cum` by
the row's `net_cf`. -/
def rows_ok : ℚ → ℕ → List YearRecord → Prop
  | _, _, [] => True
  | cum, n, r :: rest =>
    r.year = n ∧ r.net_cf = r.benefits - r.investment - r.maintenance ∧
      r.cumulative_cf = cum + r.net_cf ∧ rows_ok (cum + r.net_cf) (n + 1) rest

/-- The perf-independent factor of the five summed benefit components: with
the scenario-adjusted targets, each component is linear in the performance
multiplier, with this sum as coefficient (proof helper). -/
def unit_benefit_sum (I : FinancialInputs) : ℚ :=
  (I.current_dso - I.target_dso) / 365 * (I.annual_order_volume * I.average_order_value) *
      I.wacc +
    I.annual_order_volume * (I.target_perfect_order_rate - I.current_perfect_order_rate) *
      I.avg_rework_cost +
    (I.annual_order_volume * I.average_order_value) *
      (I.current_revenue_leakage - I.target_revenue_leakage) * I.profit_margin +
    (I.annual_order_volume * (I.target_stp_rate - I.current_stp_rate) *
      I.avg_manual_processing_time / 60) * I.fully_loaded_hourly_rate +
    I.annual_order_volume * ((I.current_cycle_time - I.target_cycle_time) /
      I.current_cycle_time) * I.average_order_value * (0.30 : ℚ) * I.profit_margin

/-- The spec's concrete base-case input (§8): volume 50000, average order
value 2500, margin 0.15, DSO 45 → 35, WACC 0.08, every other current/target
pair equal, sidebar defaults for the remaining fields. -/
def base_case_inputs : FinancialInputs :=
  { annual_order_volume := 50000
    average_order_value := 2500
    profit_margin := 0.15
    current_dso := 45
    current_perfect_order_rate := 0.75
    current_cycle_time := 5.2
    current_revenue_leakage := 0.08
    current_cost_per_order := 85
    current_stp_rate := 0.65
    target_dso := 35
    target_perfect_order_rate := 0.75
    target_cycle_time := 5.2
    target_revenue_leakage := 0.08
    target_cost_per_order := 85
    target_stp_rate := 0.65
    avg_rework_cost := 85
    fully_loaded_hourly_rate := 75
    avg_manual_processing_time := 28
    initial_investment := 500000
    annual_maintenance := 100000
    change_management_cost := 100000
    integration_cost := 75000
    wacc := 0.08
    tax_rate := 0.25
    time_horizon := 5
    pilot_duration_months := 3
    limited_production_months := 6
    full_production_month := 10 }

/-! Helper lemmas about the steady-state loop and the projection invariant. -/

theorem steady_years_succ (t a m w : ℚ) (k year : ℕ) (cum : ℚ) :
    steady_years t a m w (k + 1) year cum =
      { year := year
        phase := "Steady State"
        adoption_rate := a
        investment := 0
        maintenance := m * (1.02 : ℚ) ^ (year - 2)
        benefits := t * a * (1.03 : ℚ) ^ (year - 2)
        net_cf := t * a * (1.03 : ℚ) ^ (year - 2) - m * (1.02 : ℚ) ^ (year - 2)
        cumulative_cf := cum + (t * a * (1.03 : ℚ) ^ (year - 2) - m * (1.02 : ℚ) ^ (year - 2))
        discounted_cf := (t * a * (1.03 : ℚ) ^ (year - 2) - m * (1.02 : ℚ) ^ (year - 2)) /
          ((1 + w) ^ year) } ::
      steady_years t a m w k (year + 1)
        (cum + (t * a * (1.03 : ℚ) ^ (year - 2) - m * (1.02 : ℚ) ^ (year - 2))) :=
  rfl

theorem steady_years_length (t a m w : ℚ) :
    ∀ (count year : ℕ) (cum : ℚ), (steady_years t a m w count year cum).length = count := by
  intro count
  induction count with
  | zero => intro year cum; rfl
  | succ k ih =>
    intro year cum
    rw [steady_years_succ, List.length_cons, ih]

theorem steady_years_rows_ok (t a m w : ℚ) :
    ∀ (count year : ℕ) (cum : ℚ), rows_ok cum year (steady_years t a m w count year cum) := by
  intro count
  induction count with
  | zero => intro year cum; trivial
  | succ k ih =>
    intro year cum
    rw [steady_years_succ]
    exact ⟨rfl, by ring, rfl, ih (year + 1) _⟩

theorem rows_ok_year :
    ∀ (L : List YearRecord) (cum : ℚ) (n : ℕ), rows_ok cum n L →
      ∀ (i : ℕ) (h : i < L.length), (L.get ⟨i, h⟩).year = n + i := by
  intro L
  induction L with
  | nil => intro cum n _ i h; simp at h
  | cons r rest ih =>
    intro cum n hok i h
    cases i with
    | zero => exact hok.1
    | succ j =>
      have hj : j < rest.length := by simpa using h
      show (rest.get ⟨j, hj⟩).year = n + (j + 1)
      rw [ih (cum + r.net_cf) (n + 1) hok.2.2.2 j hj]
      omega

theorem rows_ok_net :
    ∀ (L : List YearRecord) (cum : ℚ) (n : ℕ), rows_ok cum n L →
      ∀ r ∈ L, r.net_cf = r.benefits - r.investment - r.maintenance := by
  intro L
  induction L with
  | nil => intro cum n _ r hr; simp at hr
  | cons x rest ih =>
    intro cum n hok r hr
    rcases List.mem_cons.mp hr with h | h
    · rw [h]; exact hok.2.1
    · exact ih (cum + x.net_cf) (n + 1) hok.2.2.2 r h

theorem rows_ok_cum :
    ∀ (L : List YearRecord) (cum : ℚ) (n : ℕ), rows_ok cum n L →
      ∀ (i : ℕ) (h : i < L.length),
        (L.get ⟨i, h⟩).cumulative_cf =
          cum + ((L.take (i + 1)).map (fun r => r.net_cf)).sum := by
  intro L
  induction L with
  | nil => intro cum n _ i h; simp at h
  | cons r rest ih =>
    intro cum n hok i h
    cases i with
    | zero => simpa using hok.2.2.1
    | succ j =>
      have hj : j < rest.length := by simpa using h
      show (rest.get ⟨j, hj⟩).cumulative_cf =
        cum + (((r :: rest).take (j + 2)).map (fun r => r.net_cf)).sum
      rw [ih (cum + r.net_cf) (n + 1) hok.2.2.2 j hj,
        show ((r :: rest).take (j + 2)) = r :: rest.take (j + 1) from rfl]
      simp [add_assoc]

theorem calculate_scenario_rows_ok (I : FinancialInputs) (s : ScenTag) :
    rows_ok 0 0 ((calculate_scenario I s).cash_flow) := by
  simp only [calculate_scenario]
  refine ⟨rfl, by ring, by ring, rfl, by ring, by ring, rfl, by ring, by ring, ?_⟩
  simpa using steady_years_rows_ok _ _ _ _ _ _ _

theorem cash_flow_length (I : FinancialInputs) (s : ScenTag) :
    ((calculate_scenario I s).cash_flow).length = 3 + (I.time_horizon + 1 - 3) := by
  simp only [calculate_scenario]
  simp [steady_years_length, adjusted_inputs]
  omega

/-- C4: for every input with `time_horizon ≥ 3` and every scenario tag, the
projection has exactly `time_horizon + 1` rows, row `i` carries year index `i`
(so years ascend strictly from 0), every row's `net_cf` is
`benefits - investment - maintenance`, and every row's `cumulative_cf` is the
sum of `net_cf` over rows `0..i`. -/
theorem projection_schedule_invariants (I : FinancialInputs) (s : ScenTag)
    (h : 3 ≤ I.time_horizon) :
    ((calculate_scenario I s).cash_flow).length = I.time_horizon + 1 ∧
    (∀ (i : ℕ) (hi : i < ((calculate_scenario I s).cash_flow).length),
      (((calculate_scenario I s).cash_flow).get ⟨i, hi⟩).year = i) ∧
    (∀ r ∈ (calculate_scenario I s).cash_flow,
      r.net_cf = r.benefits - r.investment - r.maintenance) ∧
    (∀ (i : ℕ) (hi : i < ((calculate_scenario I s).cash_flow).length),
      (((calculate_scenario I s).cash_flow).get ⟨i, hi⟩).cumulative_cf =
        ((((calculate_scenario I s).cash_flow).take (i + 1)).map (fun r => r.net_cf)).sum) := by
  refine ⟨?_, ?_, ?_, ?_⟩
  · rw [cash_flow_length]; omega
  · intro i hi
    simpa using rows_ok_year _ 0 0 (calculate_scenario_rows_ok I s) i hi
  · exact rows_ok_net _ 0 0 (calculate_scenario_rows_ok I s)
  · intro i hi
    simpa using rows_ok_cum _ 0 0 (calculate_scenario_rows_ok I s) i hi

/-- Witness for C4 at the concrete base-case input (horizon 5, base tag). -/
theorem projection_schedule_invariants_witness :
    ((calculate_scenario base_case_inputs ScenTag.base).cash_flow).length =
      base_case_inputs.time_horizon + 1 :=
  (projection_schedule_invariants base_case_inputs ScenTag.base
    (by norm_num [base_case_inputs])).1

/-- C2: the scenario adjustment sets each lower-is-better target (DSO, cycle
time, revenue leakage, cost per order) to
`current - (current - original_target) * perf` and each higher-is-better
target (perfect-order rate, STP rate) to
`current + (original_target - current) * perf`, where `perf` is the tag's
fixed performance multiplier (best 1.10, base 1.00, worst 0.80). -/
theorem scenario_adjustment_formulas (I : FinancialInputs) (s : ScenTag) :
    ((calculate_scenario I s).performance_multiplier = (scenario_multipliers s).2) ∧
    ((adjusted_inputs I (scenario_multipliers s).2).target_dso =
      I.current_dso - (I.current_dso - I.target_dso) * (scenario_multipliers s).2) ∧
    ((adjusted_inputs I (scenario_multipliers s).2).target_cycle_time =
      I.current_cycle_time - (I.current_cycle_time - I.target_cycle_time) *
        (scenario_multipliers s).2) ∧
    ((adjusted_inputs I (scenario_multipliers s).2).target_revenue_leakage =
      I.current_revenue_leakage - (I.current_revenue_leakage - I.target_revenue_leakage) *
        (scenario_multipliers s).2) ∧
    ((adjusted_inputs I (scenario_multipliers s).2).target_cost_per_order =
      I.current_cost_per_order - (I.current_cost_per_order - I.target_cost_per_order) *
        (scenario_multipliers s).2) ∧
    ((adjusted_inputs I (scenario_multipliers s).2).target_perfect_order_rate =
      I.current_perfect_order_rate + (I.target_perfect_order_rate -
        I.current_perfect_order_rate) * (scenario_multipliers s).2) ∧
    ((adjusted_inputs I (scenario_multipliers s).2).target_stp_rate =
      I.current_stp_rate + (I.target_stp_rate - I.current_stp_rate) *
        (scenario_multipliers s).2) ∧
    ((scenario_multipliers ScenTag.best).2 = 1.10) ∧
    ((scenario_multipliers ScenTag.base).2 = 1.00) ∧
    ((scenario_multipliers ScenTag.worst).2 = 0.80) :=
  ⟨rfl, rfl, rfl, rfl, rfl, rfl, rfl, rfl, rfl, rfl⟩

/-- C3: `total_annual_benefit` is the adoption rate times the sum of exactly
the five benefit components (working capital, error reduction, revenue
leakage, labor automation, cycle time); the cost-per-order result is computed
and reported but changing the cost-per-order inputs never changes the
total. -/
theorem total_annual_benefit_composition (I : FinancialInputs) (s : ScenTag) :
    ((calculate_scenario I s).total_annual_benefit =
      (calculate_scenario I s).adoption_rate *
        ((calculate_scenario I s).working_capital.annual_benefit +
         (calculate_scenario I s).error_reduction.annual_savings +
         (calculate_scenario I s).revenue_leakage.profit_impact +
         (calculate_scenario I s).labor_automation.annual_savings +
         (calculate_scenario I s).cycle_time.profit_impact)) ∧
    ((calculate_scenario I s).cost_reduction =
      calculate_cost_per_order_benefit
        (adjusted_inputs I (scenario_multipliers s).2).current_cost_per_order
        (adjusted_inputs I (scenario_multipliers s).2).target_cost_per_order
        I.annual_order_volume) ∧
    (∀ c c' : ℚ,
      (calculate_scenario
        { I with current_cost_per_order := c, target_cost_per_order := c' }
        s).total_annual_benefit =
      (calculate_scenario I s).total_annual_benefit) :=
  ⟨rfl, rfl, fun _ _ => rfl⟩

/-- C10: `calculate_cost_per_order_benefit` divides by `current_cost` without
a zero guard; under the positivity invariant `current_cost > 0` the
denominator is nonzero, the percentage is the true quotient, and the function
is total. -/
theorem cost_per_order_division_safe (current_cost target_cost order_volume : ℚ)
    (h : 0 < current_cost) :
    current_cost ≠ 0 ∧
    (calculate_cost_per_order_benefit current_cost target_cost
        order_volume).cost_reduction_pct * current_cost = current_cost - target_cost ∧
    (calculate_cost_per_order_benefit current_cost target_cost order_volume).annual_savings =
      (current_cost - target_cost) * order_volume := by
  refine ⟨ne_of_gt h, ?_, rfl⟩
  show (current_cost - target_cost) / current_cost * current_cost = current_cost - target_cost
  exact div_mul_cancel₀ _ (ne_of_gt h)

/-- Witness for C10 at the sidebar defaults (cost 85 → 52, volume 50000). -/
theorem cost_per_order_division_safe_witness :
    (85 : ℚ) ≠ 0 ∧
    (calculate_cost_per_order_benefit 85 52 50000).cost_reduction_pct * 85 = 85 - 52 ∧
    (calculate_cost_per_order_benefit 85 52 50000).annual_savings = (85 - 52) * 50000 :=
  cost_per_order_division_safe 85 52 50000 (by norm_num)

/-- C9: at the spec's concrete base-case input (volume 50000, order value
2500, margin 0.15, DSO 45 → 35, WACC 0.08, all other current/target pairs
equal), the base scenario yields `annual_revenue = 125,000,000` exactly, and
`cash_freed` and the working-capital `annual_benefit` within `1e-2` of
`3,424,657.53` and `273,972.60`. -/
theorem base_case_concrete_numbers :
    (calculate_scenario base_case_inputs ScenTag.base).annual_revenue = 125000000 ∧
    |(calculate_scenario base_case_inputs ScenTag.base).working_capital.cash_freed -
      3424657.53| ≤ 0.01 ∧
    |(calculate_scenario base_case_inputs ScenTag.base).working_capital.annual_benefit -
      273972.60| ≤ 0.01 := by
  refine ⟨?_, ?_, ?_⟩ <;>
    norm_num [calculate_scenario, calculate_annual_revenue, calculate_working_capital_benefit,
      adjusted_inputs, scenario_multipliers, base_case_inputs, abs_le]

/-- C1: the code multiplies the ramp benefit by the adoption rate a second
time, although `total_annual_benefit` already contains it: at the concrete
base-case input (base tag, adoption 0.75) the year-0 benefit equals
`total_annual_benefit * 0.15 * 0.75` and the year-3 benefit equals
`total_annual_benefit * 0.75 * 1.03`, so neither equals the ramp value
(`total * 0.15`, `total * 1.03`) stated by the spec. -/
theorem ramp_applies_adoption_twice :
    (((calculate_scenario base_case_inputs ScenTag.base).cash_flow.getD 0 default).benefits =
      (calculate_scenario base_case_inputs ScenTag.base).total_annual_benefit * 0.15 * 0.75) ∧
    (((calculate_scenario base_case_inputs ScenTag.base).cash_flow.getD 3 default).benefits =
      (calculate_scenario base_case_inputs ScenTag.base).total_annual_benefit * 0.75 *
        (1.03 : ℚ) ^ (1 : ℕ)) ∧
    (((calculate_scenario base_case_inputs ScenTag.base).cash_flow.getD 0 default).benefits ≠
      (calculate_scenario base_case_inputs ScenTag.base).total_annual_benefit * 0.15) ∧
    (((calculate_scenario base_case_inputs ScenTag.base).cash_flow.getD 3 default).benefits ≠
      (calculate_scenario base_case_inputs ScenTag.base).total_annual_benefit *
        (1.03 : ℚ) ^ (1 : ℕ)) := by
  refine ⟨?_, ?_, ?_, ?_⟩ <;>
    norm_num [calculate_scenario, calculate_annual_revenue, calculate_working_capital_benefit,
      calculate_error_reduction_benefit, calculate_revenue_leakage_benefit,
      calculate_labor_automation_benefit, calculate_cycle_time_benefit,
      adjusted_inputs, scenario_multipliers, base_case_inputs, steady_years]

theorem steady_sum_disc_zero (t a m : ℚ) :
    ∀ (count year : ℕ) (cum : ℚ),
      ((steady_years t a m 0 count year cum).map (fun r => r.discounted_cf)).sum =
        ((steady_years t a m 0 count year cum).map (fun r => r.net_cf)).sum := by
  intro count
  induction count with
  | zero => intro year cum; rfl
  | succ k ih =>
    intro year cum
    rw [steady_years_succ]
    simp only [List.map_cons, List.sum_cons, ih]
    norm_num

/-- C7: when WACC is 0, every year's discounted cash flow degenerates to its
net cash flow, so the NPV is the plain undiscounted sum of net cash flows. -/
theorem npv_at_zero_wacc (I : FinancialInputs) (s : ScenTag) (h : I.wacc = 0) :
    (calculate_scenario I s).npv =
      (((calculate_scenario I s).cash_flow).map (fun r => r.net_cf)).sum := by
  simp only [calculate_scenario, adjusted_inputs]
  rw [h]
  rw [List.map_append, List.map_append, List.sum_append, List.sum_append,
    steady_sum_disc_zero]
  norm_num

/-- Witness for C7 at the concrete base-case input with WACC set to 0. -/
theorem npv_at_zero_wacc_witness :
    (calculate_scenario { base_case_inputs with wacc := 0 } ScenTag.base).npv =
      (((calculate_scenario { base_case_inputs with wacc := 0 } ScenTag.base).cash_flow).map
        (fun r => r.net_cf)).sum :=
  npv_at_zero_wacc { base_case_inputs with wacc := 0 } ScenTag.base rfl

theorem payback_scan_go :
    ∀ (rows : List YearRecord) (k : ℕ) (prev : ℚ),
      payback_scan rows (k + 1) prev =
        match first_positive_index rows with
        | none => none
        | some 0 => some (((k : ℕ) : ℚ) +
            (if (rows.getD 0 default).cumulative_cf - prev ≠ 0
             then |prev| / ((rows.getD 0 default).cumulative_cf - prev) else 0))
        | some (j + 1) => some (((k + j + 1 : ℕ) : ℚ) +
            (if (rows.getD (j + 1) default).cumulative_cf -
                  (rows.getD j default).cumulative_cf ≠ 0
             then |(rows.getD j default).cumulative_cf| /
               ((rows.getD (j + 1) default).cumulative_cf -
                 (rows.getD j default).cumulative_cf)
             else 0)) := by
  intro rows
  induction rows with
  | nil => intro k prev; rfl
  | cons r rest ih =>
    intro k prev
    by_cases hpos : 0 < r.cumulative_cf
    · simp only [payback_scan, first_positive_index, if_pos hpos]
      simp
    · simp only [payback_scan, first_positive_index, if_neg hpos]
      rw [ih (k + 1) r.cumulative_cf]
      cases hfp : first_positive_index rest with
      | none => simp
      | some j =>
        cases j with
        | zero => simp
        | succ j' =>
          simp only [Option.map_some', List.getD_cons_succ]
          congr 1
          push_cast
          ring

theorem payback_scan_eq_per_spec (rows : List YearRecord) :
    payback_scan rows 0 0 = payback_per_spec rows := by
  cases rows with
  | nil => rfl
  | cons r rest =>
    by_cases hpos : 0 < r.cumulative_cf
    · simp [payback_scan, payback_per_spec, first_positive_index, hpos]
    · simp only [payback_scan, if_neg hpos]
      rw [payback_scan_go rest 0 r.cumulative_cf]
      simp only [payback_per_spec, first_positive_index, if_neg hpos]
      cases hfp : first_positive_index rest with
      | none => simp
      | some j =>
        cases j with
        | zero => simp
        | succ j' => simp

/-- C5: the payback computed by `calculate_scenario` coincides with the
spec's rule: the first year index `y` with positive `cumulative_cf`, payback
`0` when `y = 0`, otherwise `(y-1) + |cumulative_cf[y-1]| /
(cumulative_cf[y] - cumulative_cf[y-1])` with the fraction `0` on a zero
denominator, and absent when `cumulative_cf` never turns positive. -/
theorem payback_matches_spec (I : FinancialInputs) (s : ScenTag) :
    (calculate_scenario I s).payback =
      payback_per_spec ((calculate_scenario I s).cash_flow) := by
  simp only [calculate_scenario]
  exact payback_scan_eq_per_spec _

theorem total_annual_benefit_factored (I : FinancialInputs) (s : ScenTag) :
    (calculate_scenario I s).total_annual_benefit =
      (scenario_multipliers s).1 * (scenario_multipliers s).2 * unit_benefit_sum I := by
  simp only [calculate_scenario, adjusted_inputs, calculate_annual_revenue,
    calculate_working_capital_benefit, calculate_error_reduction_benefit,
    calculate_revenue_leakage_benefit, calculate_labor_automation_benefit,
    calculate_cycle_time_benefit, unit_benefit_sum]
  ring

/-- C6: under the §3 invariant (positive volume, order value and cycle time,
nonnegative margins/rates/costs, every target improving on its current value
in the metric's preferred direction), the total annual benefit is ordered
worst ≤ base ≤ best across scenarios. -/
theorem scenario_benefit_monotonicity (I : FinancialInputs)
    (hvol : 0 < I.annual_order_volume)
    (haov : 0 < I.average_order_value)
    (hmargin : 0 ≤ I.profit_margin)
    (hwacc : 0 ≤ I.wacc)
    (hrework : 0 ≤ I.avg_rework_cost)
    (hrate : 0 ≤ I.fully_loaded_hourly_rate)
    (hminutes : 0 ≤ I.avg_manual_processing_time)
    (hctpos : 0 < I.current_cycle_time)
    (hdso : I.target_dso ≤ I.current_dso)
    (hpor : I.current_perfect_order_rate ≤ I.target_perfect_order_rate)
    (hct : I.target_cycle_time ≤ I.current_cycle_time)
    (hleak : I.target_revenue_leakage ≤ I.current_revenue_leakage)
    (hstp : I.current_stp_rate ≤ I.target_stp_rate) :
    (calculate_scenario I ScenTag.worst).total_annual_benefit ≤
      (calculate_scenario I ScenTag.base).total_annual_benefit ∧
    (calculate_scenario I ScenTag.base).total_annual_benefit ≤
      (calculate_scenario I ScenTag.best).total_annual_benefit := by
  have hrev : 0 ≤ I.annual_order_volume * I.average_order_value :=
    mul_nonneg hvol.le haov.le
  have t1 : 0 ≤ (I.current_dso - I.target_dso) / 365 *
      (I.annual_order_volume * I.average_order_value) * I.wacc :=
    mul_nonneg (mul_nonneg (div_nonneg (by linarith) (by norm_num)) hrev) hwacc
  have t2 : 0 ≤ I.annual_order_volume *
      (I.target_perfect_order_rate - I.current_perfect_order_rate) * I.avg_rework_cost :=
    mul_nonneg (mul_nonneg hvol.le (by linarith)) hrework
  have t3 : 0 ≤ (I.annual_order_volume * I.average_order_value) *
      (I.current_revenue_leakage - I.target_revenue_leakage) * I.profit_margin :=
    mul_nonneg (mul_nonneg hrev (by linarith)) hmargin
  have t4 : 0 ≤ (I.annual_order_volume * (I.target_stp_rate - I.current_stp_rate) *
      I.avg_manual_processing_time / 60) * I.fully_loaded_hourly_rate :=
    mul_nonneg (div_nonneg
      (mul_nonneg (mul_nonneg hvol.le (by linarith)) hminutes) (by norm_num)) hrate
  have t5 : 0 ≤ I.annual_order_volume * ((I.current_cycle_time - I.target_cycle_time) /
      I.current_cycle_time) * I.average_order_value * (0.30 : ℚ) * I.profit_margin :=
    mul_nonneg (mul_nonneg (mul_nonneg
      (mul_nonneg hvol.le (div_nonneg (by linarith) hctpos.le)) haov.le) (by norm_num)) hmargin
  have hS : 0 ≤ unit_benefit_sum I := by
    unfold unit_benefit_sum
    linarith
  rw [total_annual_benefit_factored, total_annual_benefit_factored,
    total_annual_benefit_factored]
  simp only [scenario_multipliers]
  norm_num
  constructor <;> nlinarith [hS]

/-- Witness for C6 at the concrete base-case input. -/
theorem scenario_benefit_monotonicity_witness :
    (calculate_scenario base_case_inputs ScenTag.worst).total_annual_benefit ≤
      (calculate_scenario base_case_inputs ScenTag.base).total_annual_benefit ∧
    (calculate_scenario base_case_inputs ScenTag.base).total_annual_benefit ≤
      (calculate_scenario base_case_inputs ScenTag.best).total_annual_benefit :=
  scenario_benefit_monotonicity base_case_inputs
    (by norm_num [base_case_inputs]) (by norm_num [base_case_inputs])
    (by norm_num [base_case_inputs]) (by norm_num [base_case_inputs])
    (by norm_num [base_case_inputs]) (by norm_num [base_case_inputs])
    (by norm_num [base_case_inputs]) (by norm_num [base_case_inputs])
    (by norm_num [base_case_inputs]) (by norm_num [base_case_inputs])
    (by norm_num [base_case_inputs]) (by norm_num [base_case_inputs])
    (by norm_num [base_case_inputs])

/-- C8: the benchmark classifier compares against best-in-class, top-quartile
and average thresholds in order with inclusive boundaries, using `≤` for the
lower-is-better metrics (DSO, cost per order, revenue leakage) and `≥` for
the higher-is-better ones (perfect-order rate, STP rate), defaulting to
"Bottom Quartile"; in particular DSO 24 is Best-in-Class, DSO 53 is Bottom
Quartile and perfect-order rate 0.93 is Top Quartile. -/
theorem benchmark_classification :
    ((categorize MetricKey.dso 24).1 = "Best-in-Class") ∧
    ((categorize MetricKey.dso 53).1 = "Bottom Quartile") ∧
    ((categorize MetricKey.perfect_order_rate 0.93).1 = "Top Quartile") ∧
    (∀ v : ℚ, v ≤ 24 → (categorize MetricKey.dso v).1 = "Best-in-Class") ∧
    (∀ v : ℚ, 24 < v → v ≤ 31 → (categorize MetricKey.dso v).1 = "Top Quartile") ∧
    (∀ v : ℚ, 31 < v → v ≤ 38 → (categorize MetricKey.dso v).1 = "Average") ∧
    (∀ v : ℚ, 38 < v → (categorize MetricKey.dso v).1 = "Bottom Quartile") ∧
    (∀ v : ℚ, 0.97 ≤ v → (categorize MetricKey.perfect_order_rate v).1 = "Best-in-Class") ∧
    (∀ v : ℚ, v < 0.97 → 0.93 ≤ v →
      (categorize MetricKey.perfect_order_rate v).1 = "Top Quartile") ∧
    (∀ v : ℚ, v < 0.93 → 0.85 ≤ v →
      (categorize MetricKey.perfect_order_rate v).1 = "Average") ∧
    (∀ v : ℚ, v < 0.85 → (categorize MetricKey.perfect_order_rate v).1 = "Bottom Quartile") ∧
    (∀ v : ℚ, v ≤ 28 → (categorize MetricKey.cost_per_order v).1 = "Best-in-Class") ∧
    (∀ v : ℚ, 62 < v → (categorize MetricKey.cost_per_order v).1 = "Bottom Quartile") ∧
    (∀ v : ℚ, v ≤ 0.01 → (categorize MetricKey.revenue_leakage v).1 = "Best-in-Class") ∧
    (∀ v : ℚ, 0.06 < v → (categorize MetricKey.revenue_leakage v).1 = "Bottom Quartile") ∧
    (∀ v : ℚ, 0.95 ≤ v → (categorize MetricKey.stp_rate v).1 = "Best-in-Class") ∧
    (∀ v : ℚ, v < 0.78 → (categorize MetricKey.stp_rate v).1 = "Bottom Quartile") := by
  refine ⟨?_, ?_, ?_, ?_, ?_, ?_, ?_, ?_, ?_, ?_, ?_, ?_, ?_, ?_, ?_, ?_, ?_⟩ <;>
  · intros
    simp only [categorize, INDUSTRY_BENCHMARKS]
    split_ifs <;> first | rfl | (exfalso; linarith)

/-- Witness for C8: a DSO past the average threshold falls to the default
Bottom Quartile tier. -/
theorem benchmark_classification_witness :
    (categorize MetricKey.dso 40).1 = "Bottom Quartile" :=
  benchmark_classification.2.2.2.2.2.2.1 40 (by norm_num)

end OrderMgmt
